import Mathlib

/-!
# Verification of the mkmonster stat generator

A shallow embedding of `mkmonster.py`: the tier/size data model, the size
classification (`Count.from_int`, `SizedStat.from_size`), the base monster
builder, the quality adjustments (`Monster.poor` / `Monster.good`), the
decorator adjustment chain (`AdjustedMonster`, `AtksPerRoundAdjustment`,
`ResistantAdjustment`), the threat evaluator, and the argument converters
(`apr_arg`, `count_num_arg`).

Python integers are modelled as `Int`; Python `//` (floor division) as
`Int.fdiv`.  Python calls that can raise are modelled as `Except String`
values carrying the exception class name; `None` results are `Option.none`.
-/

set_option autoImplicit false

namespace Mkmonster

/-- One stat's values at the three quality settings (class `QualityStat`). -/
structure QualityStat where
  poor : Int
  average : Int
  good : Int
deriving DecidableEq

/-- Per-size quality bands for hp and damage (class `SizedStat`). -/
structure SizedStat where
  solo : QualityStat
  pair : QualityStat
  party : QualityStat
  gang : QualityStat
  mob : QualityStat
deriving DecidableEq

/-- `SizedStat.from_size(self, size: int)`: selects the quality band for a
numeric group size; any size outside 1..20 (non-positive or 21 and above)
falls into the final `else` and yields the degenerate band
`QualityStat(1, 1, 1)`. -/
def SizedStat.from_size (s : SizedStat) (size : Int) : QualityStat :=
  if size = 1 then s.solo
  else if size = 2 then s.pair
  else if 3 ≤ size ∧ size ≤ 6 then s.party
  else if 7 ≤ size ∧ size ≤ 10 then s.gang
  else if 11 ≤ size ∧ size ≤ 20 then s.mob
  else QualityStat.mk 1 1 1

/-- Class `Tier`: a named inclusive level range with a proficiency bonus. -/
structure Tier where
  min : Int
  max : Int
  name : String
  prof : Int
deriving DecidableEq

/-- Class `TierStat`: one row of the reference table. -/
structure TierStat where
  tier : Tier
  ac : QualityStat
  hp : SizedStat
  atk : QualityStat
  dc : QualityStat
  dmg : SizedStat
deriving DecidableEq

/-- Class `Count`: a size label together with the raw count
(fields `_label` and `_int` in the source). -/
structure Count where
  label : String
  count : Int
deriving DecidableEq

/-- `Count.RANGES`: label, inclusive bounds (`none` is an infinite end), and
default/average count. -/
def Count.RANGES : List (String × Option Int × Option Int × Option Int) :=
  [("solo", some 1, some 1, some 1),
   ("pair", some 2, some 2, some 2),
   ("party", some 3, some 5, some 4),
   ("gang", some 7, some 10, some 8),
   ("mob", some 11, some 20, some 16),
   ("army", some 21, none, none)]

/-- The loop body of `Count.from_int`: a missing bound is replaced by the
probed count itself, then the first label whose (inclusive) range contains
the count is taken. -/
def Count.fromRanges : List (String × Option Int × Option Int × Option Int) → Int → Option Count
  | [], _ => none
  | (k, lo, hi, _) :: rest, count =>
    let lo' := lo.getD count
    let hi' := hi.getD count
    if lo' ≤ count ∧ count ≤ hi' then some (Count.mk k count)
    else Count.fromRanges rest count

/-- `Count.from_int(count)`: scans `RANGES` in order; returns `None`
(here `Option.none`) when no range matches. -/
def Count.from_int (count : Int) : Option Count :=
  Count.fromRanges Count.RANGES count

/-- The shared per-monster sign map `_threats` (`-1` poor, `0` untouched,
`+1` good), with the five keys `ac, hp, atk, dc, dmg`. -/
structure ThreatSigns where
  ac : Int
  hp : Int
  atk : Int
  dc : Int
  dmg : Int
deriving DecidableEq

/-- Dictionary read `self._threats[stat_str]` (0 for a key that is absent;
callers always guard membership first). -/
def ThreatSigns.get (t : ThreatSigns) (stat : String) : Int :=
  if stat = "ac" then t.ac
  else if stat = "hp" then t.hp
  else if stat = "atk" then t.atk
  else if stat = "dc" then t.dc
  else if stat = "dmg" then t.dmg
  else 0

/-- Dictionary write `self._threats[stat_str] = v` (no-op for a key that is
absent; callers always guard membership first). -/
def ThreatSigns.set (t : ThreatSigns) (stat : String) (v : Int) : ThreatSigns :=
  if stat = "ac" then { t with ac := v }
  else if stat = "hp" then { t with hp := v }
  else if stat = "atk" then { t with atk := v }
  else if stat = "dc" then { t with dc := v }
  else if stat = "dmg" then { t with dmg := v }
  else t

/-- The root `Monster` object's state: the constructor arguments plus the
mutable stat attributes and the `_threats` sign map. -/
structure Monster where
  base_tier : TierStat
  size : Count
  name : Option String
  tier : Tier
  ac : Int
  hp : Int
  atk : Int
  dc : Int
  dmg : Int
  threats : ThreatSigns
deriving DecidableEq

/-- `Monster.THREAT_STATS`. -/
def Monster.THREAT_STATS : List String := ["ac", "hp", "atk", "dc", "dmg"]

/-- `Monster.__init__`: every stat starts at its band's `average` value
(hp and dmg via `from_size(int(self._size))`), every sign at 0. -/
def Monster.make (bt : TierStat) (size : Count) (name : Option String) : Monster :=
  { base_tier := bt
    size := size
    name := name
    tier := bt.tier
    ac := bt.ac.average
    hp := (bt.hp.from_size size.count).average
    atk := bt.atk.average
    dc := bt.dc.average
    dmg := (bt.dmg.from_size size.count).average
    threats := ThreatSigns.mk 0 0 0 0 0 }

/-- The exception raised when `3 <= size` compares an `int` with a `Count`
object. -/
def typeErrorMsg : String :=
  "TypeError: comparison not supported between instances of int and Count"

/-- Models `from_size` when invoked with the `Count` object itself instead of
`int(count)`, as `Monster._get_base_stat_from_str` does for hp and dmg: in
Python `size == 1` and `size == 2` compare by object identity (False, since
`Count` defines no `__eq__` against ints), and the next branch evaluates
`3 <= size`, which raises `TypeError` because `Count` defines no ordering.
So the call always raises, for every `Count` argument. -/
def SizedStat.from_size_countObj : SizedStat → Count → Except String QualityStat :=
  fun _ _ => Except.error typeErrorMsg

/-- `Monster._get_base_stat_from_str`: the quality band backing a stat name.
For hp and dmg the source passes `self._size` (the `Count` object) to
`from_size`, so those lookups raise `TypeError`. -/
def Monster.get_base_stat (st : Monster) (stat : String) : Except String (Option QualityStat) :=
  if stat ∈ Monster.THREAT_STATS then
    if stat = "ac" then Except.ok (some st.base_tier.ac)
    else if stat = "hp" then (st.base_tier.hp.from_size_countObj st.size).map some
    else if stat = "atk" then Except.ok (some st.base_tier.atk)
    else if stat = "dc" then Except.ok (some st.base_tier.dc)
    else if stat = "dmg" then (st.base_tier.dmg.from_size_countObj st.size).map some
    else Except.ok none
  else Except.ok none

/-- `Monster._set_stat_from_str`: assigns the named stat attribute; unknown
names are ignored. -/
def Monster.set_stat (st : Monster) (stat : String) (v : Int) : Monster :=
  if stat ∈ Monster.THREAT_STATS then
    if stat = "ac" then { st with ac := v }
    else if stat = "hp" then { st with hp := v }
    else if stat = "atk" then { st with atk := v }
    else if stat = "dc" then { st with dc := v }
    else if stat = "dmg" then { st with dmg := v }
    else st
  else st

/-- `self._threats[stat_str] = v` wrapped as a state update. -/
def Monster.set_threat (st : Monster) (stat : String) (v : Int) : Monster :=
  { st with threats := st.threats.set stat v }

/-- The common shape of `Monster.poor` and `Monster.good` (the two methods
are line-for-line identical except for the selected band value and the
sign): silently ignore unknown stats; if the sign is not already `sign`, set
the stat to the selected band value and the sign to `sign`.  The `TypeError`
from the hp/dmg band lookup propagates. -/
def Monster.adjust (st : Monster) (stat : String) (sel : QualityStat → Int) (sign : Int) :
    Except String Monster :=
  if stat ∈ Monster.THREAT_STATS then
    if st.threats.get stat ≠ sign then
      match st.get_base_stat stat with
      | Except.error e => Except.error e
      | Except.ok none => Except.ok st
      | Except.ok (some base) =>
        Except.ok ((st.set_stat stat (sel base)).set_threat stat sign)
    else Except.ok st
  else Except.ok st

/-- `Monster.poor(stat_str)`: the band's `poor` value, sign -1. -/
def Monster.poor (st : Monster) (stat : String) : Except String Monster :=
  st.adjust stat QualityStat.poor (-1)

/-- `Monster.good(stat_str)`: the band's `good` value, sign +1. -/
def Monster.good (st : Monster) (stat : String) : Except String Monster :=
  st.adjust stat QualityStat.good 1

/-- The `Monster.threat` property: `reduce` sums the signs in dictionary
order, then subtracts the dc sign once when the atk and dc signs agree. -/
def Monster.threat (t : ThreatSigns) : Int :=
  let s := Monster.THREAT_STATS.foldl (fun acc k => acc + t.get k) 0
  if t.atk = t.dc then s - t.dc else s

/-- The `Monster.threat_str` property. -/
def Monster.threat_str (threat : Int) : String :=
  if threat < -3 then "Trivial threat (" ++ toString threat ++ ")"
  else if -3 ≤ threat ∧ threat ≤ -2 then "Low threat (" ++ toString threat ++ ")"
  else if -1 ≤ threat ∧ threat ≤ 1 then "Medium threat (" ++ toString threat ++ ")"
  else if 2 ≤ threat ∧ threat ≤ 3 then "High threat (" ++ toString threat ++ ")"
  else if 3 < threat then "Extreme threat (" ++ toString threat ++ ")"
  else "Unknown threat (" ++ toString threat ++ ")"

/-- One decorator layer wrapping a monster: `AdjustedMonster` itself
(`plain`), `AtksPerRoundAdjustment` with its `_apr`, or
`ResistantAdjustment`.  A wrapped monster is a root `Monster` together with
a list of layers, outermost first. -/
inductive Adjustment where
  | plain
  | atksPerRound (apr : Int)
  | resistant
deriving DecidableEq

/-- The exception raised by `//` with a zero divisor. -/
def zeroDivisionMsg : String :=
  "ZeroDivisionError: integer division or modulo by zero"

/-- The `name` getter read through a chain of layers: every adjustment
delegates to its wrapped monster. -/
def nameView : List Adjustment → Monster → Option String
  | [], st => st.name
  | _ :: rest, st => nameView rest st

/-- The `tier` getter read through a chain of layers: always delegated. -/
def tierView : List Adjustment → Monster → Tier
  | [], st => st.tier
  | _ :: rest, st => tierView rest st

/-- The `ac` getter read through a chain of layers: always delegated. -/
def acView : List Adjustment → Monster → Int
  | [], st => st.ac
  | _ :: rest, st => acView rest st

/-- The `atk` getter read through a chain of layers: always delegated. -/
def atkView : List Adjustment → Monster → Int
  | [], st => st.atk
  | _ :: rest, st => atkView rest st

/-- The `dc` getter read through a chain of layers: always delegated. -/
def dcView : List Adjustment → Monster → Int
  | [], st => st.dc
  | _ :: rest, st => dcView rest st

/-- The `hp` getter read through a chain of layers: `ResistantAdjustment`
overrides it with `self._base.hp // 2`; the other layers delegate. -/
def hpView : List Adjustment → Monster → Int
  | [], st => st.hp
  | Adjustment.resistant :: rest, st => Int.fdiv (hpView rest st) 2
  | Adjustment.plain :: rest, st => hpView rest st
  | Adjustment.atksPerRound _ :: rest, st => hpView rest st

/-- The `dmg` getter read through a chain of layers: `AtksPerRoundAdjustment`
overrides it with `self._base.dmg // self._apr` (raising
`ZeroDivisionError` when `_apr` is 0); the other layers delegate. -/
def dmgView : List Adjustment → Monster → Except String Int
  | [], st => Except.ok st.dmg
  | Adjustment.atksPerRound apr :: rest, st =>
    match dmgView rest st with
    | Except.error e => Except.error e
    | Except.ok d =>
      if apr = 0 then Except.error zeroDivisionMsg else Except.ok (Int.fdiv d apr)
  | Adjustment.plain :: rest, st => dmgView rest st
  | Adjustment.resistant :: rest, st => dmgView rest st

/-- The `_threats` attribute read through a chain of layers:
`AdjustedMonster.__init__` assigns `self._threats = base._threats`, so every
layer holds the same object as its wrapped monster, down to the root. -/
def threatsView : List Adjustment → Monster → ThreatSigns
  | [], st => st.threats
  | _ :: rest, st => threatsView rest st

/-- The `threat` property evaluated on a layer: the inherited getter reads
`self._threats`, the map aliased down to the root. -/
def threatView (view : List Adjustment) (st : Monster) : Int :=
  Monster.threat (threatsView view st)

/-- A stat assignment performed on a layer object: `AdjustedMonster`'s
property setters forward to the wrapped monster, down to the root `Monster`
whose setters write the attribute.  `AtksPerRoundAdjustment` redefines the
`dmg` property with a getter only, and `ResistantAdjustment` does the same
for `hp`, so assigning those stats through such a layer raises
`AttributeError`. -/
def set_stat_through : List Adjustment → Monster → String → Int → Except String Monster
  | [], st, stat, v => Except.ok (st.set_stat stat v)
  | Adjustment.plain :: rest, st, stat, v => set_stat_through rest st stat v
  | Adjustment.atksPerRound _ :: rest, st, stat, v =>
    if stat = "dmg" then Except.error "AttributeError: cant set attribute"
    else set_stat_through rest st stat v
  | Adjustment.resistant :: rest, st, stat, v =>
    if stat = "hp" then Except.error "AttributeError: cant set attribute"
    else set_stat_through rest st stat v

/-- `poor`/`good` invoked on a layer object: the inherited `Monster` method
runs with `self._threats` aliased to the root map, `self._base_tier` and
`self._size` equal to the root's (copied up the chain by `__init__`), and the
stat assignment delegating through the property setters. -/
def adjustThrough (view : List Adjustment) (st : Monster) (stat : String)
    (sel : QualityStat → Int) (sign : Int) : Except String Monster :=
  if stat ∈ Monster.THREAT_STATS then
    if (threatsView view st).get stat ≠ sign then
      match st.get_base_stat stat with
      | Except.error e => Except.error e
      | Except.ok none => Except.ok st
      | Except.ok (some base) =>
        match set_stat_through view st stat (sel base) with
        | Except.error e => Except.error e
        | Except.ok st1 => Except.ok (st1.set_threat stat sign)
    else Except.ok st
  else Except.ok st

/-- `good(stat_str)` invoked on a layer object. -/
def goodThrough (view : List Adjustment) (st : Monster) (stat : String) : Except String Monster :=
  adjustThrough view st stat QualityStat.good 1

/-- `poor(stat_str)` invoked on a layer object. -/
def poorThrough (view : List Adjustment) (st : Monster) (stat : String) : Except String Monster :=
  adjustThrough view st stat QualityStat.poor (-1)

/-- Python `str.isnumeric()` restricted to ASCII input: non-empty and all
decimal digits. -/
def pyIsNumeric (s : String) : Bool :=
  !s.data.isEmpty && s.data.all Char.isDigit

/-- Python `str.lower()` restricted to ASCII input. -/
def pyLower (s : String) : String :=
  String.mk (s.data.map Char.toLower)

/-- The numeric value of a digit string (`int(arg)` on a digit-only
argument); `none` when the characters are not all digits or the string is
empty. -/
def digitsVal (l : List Char) : Option Nat :=
  if l ≠ [] ∧ l.all Char.isDigit then
    some (l.foldl (fun a c => a * 10 + (c.toNat - 48)) 0)
  else none

/-- Python `int(arg)` on a string: an optional leading minus sign followed by
digits (the Python extras - leading plus, surrounding whitespace,
underscores - do not occur in the inputs considered here). -/
def pyInt (s : String) : Option Int :=
  match s.data with
  | '-' :: rest => (digitsVal rest).map (fun n => -(n : Int))
  | l => (digitsVal l).map (fun n => (n : Int))

/-- The outcome of an argparse `type=` converter: a returned value, or a
raised `ArgumentTypeError` with its message. -/
inductive ArgResult (α : Type) where
  | ok (val : α)
  | err (msg : String)
deriving DecidableEq

/-- Whether the converter raised. -/
def ArgResult.isErr {α : Type} : ArgResult α → Bool
  | ArgResult.ok _ => false
  | ArgResult.err _ => true

/-- `apr_arg(arg)`: a numeric string parses as its integer value; otherwise
the lowercased argument is checked against `area` (2) and `dot` (1); any
other string falls off the end of the function and yields Python `None` -
no exception is ever raised.  (The `getD 0` default is unreachable: a
numeric string always parses.) -/
def apr_arg (arg : String) : ArgResult (Option Int) :=
  if pyIsNumeric arg then ArgResult.ok (some ((pyInt arg).getD 0))
  else
    let a := pyLower arg
    if a = "area" then ArgResult.ok (some 2)
    else if a = "dot" then ArgResult.ok (some 1)
    else ArgResult.ok none

/-- `count_num_arg(arg)`: `int(arg)` then `Count.from_int`; a `ValueError`
from `int()` is converted to `ArgumentTypeError`, but an unmatched count
yields Python `None` as the parsed value.  (Python's message quotes the
literal; the quotes are dropped here.) -/
def count_num_arg (arg : String) : ArgResult (Option Count) :=
  match pyInt arg with
  | some n => ArgResult.ok (Count.from_int n)
  | none => ArgResult.err ("invalid literal for int() with base 10: " ++ arg)

/-- A concrete reference-table row used to instantiate the theorems: the
Legendary tier of the spec's end-to-end example, with made-up but distinct
band values. -/
def legendary : TierStat :=
  { tier := { min := 17, max := 20, name := "Legendary", prof := 7 }
    ac := QualityStat.mk 15 17 19
    hp := SizedStat.mk (QualityStat.mk 200 220 240) (QualityStat.mk 120 130 140)
      (QualityStat.mk 80 90 100) (QualityStat.mk 50 55 60) (QualityStat.mk 30 33 36)
    atk := QualityStat.mk 9 11 13
    dc := QualityStat.mk 15 17 19
    dmg := SizedStat.mk (QualityStat.mk 40 45 50) (QualityStat.mk 30 33 36)
      (QualityStat.mk 20 22 24) (QualityStat.mk 12 14 16) (QualityStat.mk 8 9 10) }

/-- `Count.from_int(4)`: a party of four. -/
def partyCount : Count := Count.mk "party" 4

/-- A concrete base monster for the witnesses. -/
def fixtureMonster : Monster := Monster.make legendary partyCount (some "Gorehowl")

/-- `fixtureMonster` after `good("ac")`. -/
def acBoosted : Monster := (fixtureMonster.set_stat "ac" 19).set_threat "ac" 1

/-- `fixtureMonster` after `poor("dc")`. -/
def dcReduced : Monster := (fixtureMonster.set_stat "dc" 15).set_threat "dc" (-1)

/-- `fixtureMonster` after `poor("atk")` followed by `good("atk")`. -/
def atkBoosted : Monster := (fixtureMonster.set_stat "atk" 13).set_threat "atk" 1

end Mkmonster

deriving instance DecidableEq for Except

namespace Mkmonster

/-- Reading `_threats` through any chain of layers reaches the single map
stored at the root: the aliasing assignments collapse. -/
theorem threatsView_eq : ∀ (v : List Adjustment) (st : Monster), threatsView v st = st.threats
  | [], _ => rfl
  | _ :: rest, st => threatsView_eq rest st

/-- Assigning a stat other than hp and dmg through any chain of layers
reaches the root setter (no layer shadows those setters). -/
theorem set_stat_through_ok (v : List Adjustment) (st : Monster) (stat : String)
    (h1 : stat ≠ "hp") (h2 : stat ≠ "dmg") (val : Int) :
    set_stat_through v st stat val = Except.ok (st.set_stat stat val) := by
  induction v with
  | nil => rfl
  | cons a rest ih =>
    cases a with
    | plain => simpa [set_stat_through] using ih
    | atksPerRound apr => simp [set_stat_through, h2, ih]
    | resistant => simp [set_stat_through, h1, ih]

/-- For a stat actually in the sign map, `_get_base_stat_from_str` either
returns the band (ac, atk, dc) or raises the `TypeError` (hp, dmg). -/
theorem get_base_stat_mem (st : Monster) (stat : String)
    (hmem : stat ∈ Monster.THREAT_STATS) :
    (stat = "ac" ∧ st.get_base_stat stat = Except.ok (some st.base_tier.ac)) ∨
    (stat = "hp" ∧ st.get_base_stat stat = Except.error typeErrorMsg) ∨
    (stat = "atk" ∧ st.get_base_stat stat = Except.ok (some st.base_tier.atk)) ∨
    (stat = "dc" ∧ st.get_base_stat stat = Except.ok (some st.base_tier.dc)) ∨
    (stat = "dmg" ∧ st.get_base_stat stat = Except.error typeErrorMsg) := by
  simp only [Monster.THREAT_STATS, List.mem_cons, List.not_mem_nil, or_false] at hmem
  rcases hmem with rfl | rfl | rfl | rfl | rfl
  · exact Or.inl ⟨rfl, rfl⟩
  · exact Or.inr (Or.inl ⟨rfl, rfl⟩)
  · exact Or.inr (Or.inr (Or.inl ⟨rfl, rfl⟩))
  · exact Or.inr (Or.inr (Or.inr (Or.inl ⟨rfl, rfl⟩)))
  · exact Or.inr (Or.inr (Or.inr (Or.inr ⟨rfl, rfl⟩)))

/-- Calling `poor`/`good` on any layer of a chain has exactly the effect of
calling it on the root monster: the sign map is aliased, the tier and size
are copies of the root's, and the setters forward. -/
theorem adjustThrough_eq (v : List Adjustment) (st : Monster) (stat : String)
    (sel : QualityStat → Int) (sign : Int) :
    adjustThrough v st stat sel sign = st.adjust stat sel sign := by
  unfold adjustThrough Monster.adjust
  rw [threatsView_eq]
  by_cases hmem : stat ∈ Monster.THREAT_STATS
  · rw [if_pos hmem, if_pos hmem]
    by_cases hs : st.threats.get stat ≠ sign
    · rw [if_pos hs, if_pos hs]
      rcases get_base_stat_mem st stat hmem with ⟨hst, hgb⟩ | ⟨hst, hgb⟩ | ⟨hst, hgb⟩ |
        ⟨hst, hgb⟩ | ⟨hst, hgb⟩ <;> rw [hgb] <;> subst hst
      · simp only [set_stat_through_ok v st "ac" (by decide) (by decide)]
      · simp only [set_stat_through_ok v st "atk" (by decide) (by decide)]
      · simp only [set_stat_through_ok v st "dc" (by decide) (by decide)]
    · rw [if_neg hs, if_neg hs]
  · rw [if_neg hmem, if_neg hmem]

/-- After a successful `adjust` on a stat in the sign map, that stat's sign
in the (shared) map is `sign`. -/
theorem adjust_sign (st st' : Monster) (stat : String) (sel : QualityStat → Int) (sign : Int)
    (hmem : stat ∈ Monster.THREAT_STATS)
    (h : st.adjust stat sel sign = Except.ok st') :
    st'.threats.get stat = sign := by
  unfold Monster.adjust at h
  rw [if_pos hmem] at h
  by_cases hs : st.threats.get stat ≠ sign
  · rw [if_pos hs] at h
    rcases get_base_stat_mem st stat hmem with ⟨hst, hgb⟩ | ⟨hst, hgb⟩ | ⟨hst, hgb⟩ |
      ⟨hst, hgb⟩ | ⟨hst, hgb⟩ <;> rw [hgb] at h <;> subst hst
    · injection h with h'; subst h'; rfl
    · exact Except.noConfusion h
    · injection h with h'; subst h'; rfl
    · injection h with h'; subst h'; rfl
    · exact Except.noConfusion h
  · rw [if_neg hs] at h
    injection h with h'
    subst h'
    exact not_not.mp hs

/-- A successful `adjust` is idempotent: repeating it returns the same state
unchanged. -/
theorem adjust_idem (st st' : Monster) (stat : String) (sel : QualityStat → Int) (sign : Int)
    (h : st.adjust stat sel sign = Except.ok st') :
    st'.adjust stat sel sign = Except.ok st' := by
  by_cases hmem : stat ∈ Monster.THREAT_STATS
  · have hsign := adjust_sign st st' stat sel sign hmem h
    unfold Monster.adjust
    rw [if_pos hmem, if_neg (not_not_intro hsign)]
  · unfold Monster.adjust
    rw [if_neg hmem]

/-- C1: the claim reads both classification functions as total.  The hp/dmg
band selection `SizedStat.from_size` is indeed total over all integers
(every count yields one of the six possible bands), but the count
classification `Count.from_int` is partial: it yields no `Count` for any
non-positive count, and yields one for every positive count except 6, which
falls in the gap between the party range (3-5) and the gang range (7-10). -/
theorem c1_size_classification (s : SizedStat) (c : Int) :
    (s.from_size c = s.solo ∨ s.from_size c = s.pair ∨ s.from_size c = s.party ∨
      s.from_size c = s.gang ∨ s.from_size c = s.mob ∨
      s.from_size c = QualityStat.mk 1 1 1) ∧
    (c ≤ 0 → Count.from_int c = none) ∧
    (1 ≤ c → c ≠ 6 → ∃ k : Count, Count.from_int c = some k ∧ k.count = c) := by
  refine ⟨?_, ?_, ?_⟩
  · unfold SizedStat.from_size
    split_ifs <;> tauto
  · intro h
    simp only [Count.from_int, Count.RANGES, Count.fromRanges, Option.getD_some, Option.getD_none]
    split_ifs <;> first | rfl | (exfalso; omega)
  · intro h1 h6
    simp only [Count.from_int, Count.RANGES, Count.fromRanges, Option.getD_some, Option.getD_none]
    split_ifs <;> first | exact ⟨_, rfl, rfl⟩ | (exfalso; omega)

/-- C1 counterexample: the display classification fails (returns Python
`None`) at count 6 and at count 0, so the classification cited by the claim
is not total. -/
theorem c1_counterexample : Count.from_int 6 = none ∧ Count.from_int 0 = none := by decide

/-- C1 witness. -/
theorem c1_witness :
    Count.from_int (-1) = none ∧ ∃ k : Count, Count.from_int 4 = some k ∧ k.count = 4 :=
  ⟨(c1_size_classification legendary.hp (-1)).2.1 (by decide),
   (c1_size_classification legendary.hp 4).2.2 (by decide) (by decide)⟩

/-- C2: contrary to the claim, counts of 21 and above do not reuse the Mob
band: `from_size` returns the degenerate band `QualityStat(1, 1, 1)` for
every count of at least 21 (the same fallback as for non-positive counts). -/
theorem c2_from_size_ge21_degenerate (s : SizedStat) (c : Int) (h : 21 ≤ c) :
    s.from_size c = QualityStat.mk 1 1 1 := by
  unfold SizedStat.from_size
  split_ifs <;> first | rfl | (exfalso; omega)

/-- C2 counterexample: at count 21 the hp lookup returns the degenerate
band, not the Mob band as the claim states. -/
theorem c2_counterexample :
    legendary.hp.from_size 21 = QualityStat.mk 1 1 1 ∧
    legendary.hp.from_size 21 ≠ legendary.hp.mob := by decide

/-- C2 witness. -/
theorem c2_witness : legendary.dmg.from_size 25 = QualityStat.mk 1 1 1 :=
  c2_from_size_ge21_degenerate legendary.dmg 25 (by decide)

/-- C8: the resilience adjustment halves (floor) the wrapped monster's hit
points, and composing it with an attack-count adjustment in either order
yields the same hp and the same dmg. -/
theorem c8_resistant_adjustment (st : Monster) (layers : List Adjustment) (apr : Int) :
    hpView (Adjustment.resistant :: layers) st = Int.fdiv (hpView layers st) 2 ∧
    hpView (Adjustment.resistant :: Adjustment.atksPerRound apr :: layers) st
      = hpView (Adjustment.atksPerRound apr :: Adjustment.resistant :: layers) st ∧
    dmgView (Adjustment.resistant :: Adjustment.atksPerRound apr :: layers) st
      = dmgView (Adjustment.atksPerRound apr :: Adjustment.resistant :: layers) st :=
  ⟨rfl, rfl, rfl⟩

/-- C10: the damage division by `attacksPerRound` is unguarded.  The apr
argument converter accepts the numeric string `0` and returns 0, and
reading `dmg` through an attack-count adjustment constructed with 0 raises
`ZeroDivisionError`. -/
theorem c10_unguarded_zero_division (st : Monster) :
    apr_arg "0" = ArgResult.ok (some 0) ∧
    dmgView [Adjustment.atksPerRound 0, Adjustment.plain] st = Except.error zeroDivisionMsg :=
  ⟨by decide, rfl⟩

/-- C3: the threat score is the sum of the five signs, minus the dc sign
once when the atk sign equals the dc sign; the label bands are as claimed;
and the two concrete sign maps evaluate to Medium 1 and Trivial -4. -/
theorem c3_threat_score_and_labels (t : ThreatSigns) (n : Int) :
    Monster.threat t
        = t.ac + t.hp + t.atk + t.dc + t.dmg - (if t.atk = t.dc then t.dc else 0) ∧
    (n < -3 → Monster.threat_str n = "Trivial threat (" ++ toString n ++ ")") ∧
    (-3 ≤ n → n ≤ -2 → Monster.threat_str n = "Low threat (" ++ toString n ++ ")") ∧
    (-1 ≤ n → n ≤ 1 → Monster.threat_str n = "Medium threat (" ++ toString n ++ ")") ∧
    (2 ≤ n → n ≤ 3 → Monster.threat_str n = "High threat (" ++ toString n ++ ")") ∧
    (3 < n → Monster.threat_str n = "Extreme threat (" ++ toString n ++ ")") ∧
    Monster.threat (ThreatSigns.mk 0 0 1 1 0) = 1 ∧
    Monster.threat_str (Monster.threat (ThreatSigns.mk 0 0 1 1 0)) = "Medium threat (1)" ∧
    Monster.threat (ThreatSigns.mk (-1) (-1) (-1) 0 (-1)) = -4 ∧
    Monster.threat_str (Monster.threat (ThreatSigns.mk (-1) (-1) (-1) 0 (-1)))
        = "Trivial threat (-4)" := by
  refine ⟨?_, ?_, ?_, ?_, ?_, ?_, by decide, by decide, by decide, by decide⟩
  · show (if t.atk = t.dc then 0 + t.ac + t.hp + t.atk + t.dc + t.dmg - t.dc
        else 0 + t.ac + t.hp + t.atk + t.dc + t.dmg) = _
    split_ifs <;> omega
  · intro h
    unfold Monster.threat_str
    rw [if_pos h]
  · intro h1 h2
    unfold Monster.threat_str
    split_ifs <;> first | rfl | (exfalso; omega)
  · intro h1 h2
    unfold Monster.threat_str
    split_ifs <;> first | rfl | (exfalso; omega)
  · intro h1 h2
    unfold Monster.threat_str
    split_ifs <;> first | rfl | (exfalso; omega)
  · intro h
    unfold Monster.threat_str
    split_ifs <;> first | rfl | (exfalso; omega)

/-- C3 witness. -/
theorem c3_witness :
    Monster.threat_str (-5) = "Trivial threat (-5)" ∧
    Monster.threat_str (-2) = "Low threat (-2)" ∧
    Monster.threat_str 0 = "Medium threat (0)" ∧
    Monster.threat_str 3 = "High threat (3)" ∧
    Monster.threat_str 9 = "Extreme threat (9)" :=
  ⟨(c3_threat_score_and_labels (ThreatSigns.mk 0 0 0 0 0) (-5)).2.1 (by decide),
   (c3_threat_score_and_labels (ThreatSigns.mk 0 0 0 0 0) (-2)).2.2.1 (by decide) (by decide),
   (c3_threat_score_and_labels (ThreatSigns.mk 0 0 0 0 0) 0).2.2.2.1 (by decide) (by decide),
   (c3_threat_score_and_labels (ThreatSigns.mk 0 0 0 0 0) 3).2.2.2.2.1 (by decide) (by decide),
   (c3_threat_score_and_labels (ThreatSigns.mk 0 0 0 0 0) 9).2.2.2.2.2.1 (by decide)⟩

/-- C4: for any wrapped monster and `attacksPerRound` of at least 1, the
attack-count layer's damage is the wrapped damage floor-divided by
`attacksPerRound`, every other stat passes through unchanged, and with
`attacksPerRound` 1 the damage is also unchanged. -/
theorem c4_atks_per_round_adjustment (st : Monster) (layers : List Adjustment) (apr : Int)
    (h : 1 ≤ apr) :
    dmgView (Adjustment.atksPerRound apr :: layers) st
        = (dmgView layers st).map (fun d => Int.fdiv d apr) ∧
    nameView (Adjustment.atksPerRound apr :: layers) st = nameView layers st ∧
    tierView (Adjustment.atksPerRound apr :: layers) st = tierView layers st ∧
    acView (Adjustment.atksPerRound apr :: layers) st = acView layers st ∧
    hpView (Adjustment.atksPerRound apr :: layers) st = hpView layers st ∧
    atkView (Adjustment.atksPerRound apr :: layers) st = atkView layers st ∧
    dcView (Adjustment.atksPerRound apr :: layers) st = dcView layers st ∧
    dmgView (Adjustment.atksPerRound 1 :: layers) st = dmgView layers st := by
  have hne : apr ≠ 0 := by omega
  refine ⟨?_, rfl, rfl, rfl, rfl, rfl, rfl, ?_⟩
  · cases hd : dmgView layers st <;> simp [dmgView, hd, hne, Except.map]
  · cases hd : dmgView layers st <;> simp [dmgView, hd, Int.fdiv_one]

/-- C4 witness. -/
theorem c4_witness :
    dmgView [Adjustment.atksPerRound 2, Adjustment.plain] fixtureMonster
        = (dmgView [Adjustment.plain] fixtureMonster).map (fun d => Int.fdiv d 2) :=
  (c4_atks_per_round_adjustment fixtureMonster [Adjustment.plain] 2 (by decide)).1

/-- C5: every layer of a chain shares the root's sign map, so a quality
mutation performed through any layer (when it completes) is visible in the
signs read through any other layer, and the threat score read through any
layer is the threat of that shared map. -/
theorem c5_shared_threat_map (v₁ v₂ : List Adjustment) (st st' : Monster) (stat : String)
    (hmem : stat ∈ Monster.THREAT_STATS) :
    (goodThrough v₁ st stat = Except.ok st' →
      (threatsView v₂ st').get stat = 1 ∧ threatView v₂ st' = Monster.threat st'.threats) ∧
    (poorThrough v₁ st stat = Except.ok st' →
      (threatsView v₂ st').get stat = -1 ∧ threatView v₂ st' = Monster.threat st'.threats) := by
  constructor
  · intro h
    unfold goodThrough at h
    rw [adjustThrough_eq] at h
    refine ⟨?_, ?_⟩
    · rw [threatsView_eq]
      exact adjust_sign st st' stat QualityStat.good 1 hmem h
    · unfold threatView
      rw [threatsView_eq]
  · intro h
    unfold poorThrough at h
    rw [adjustThrough_eq] at h
    refine ⟨?_, ?_⟩
    · rw [threatsView_eq]
      exact adjust_sign st st' stat QualityStat.poor (-1) hmem h
    · unfold threatView
      rw [threatsView_eq]

/-- C5 witness: a `good("ac")` performed through the inner plain layer is
visible through an outer attack-count layer. -/
theorem c5_witness :
    (threatsView [Adjustment.atksPerRound 2, Adjustment.plain] acBoosted).get "ac" = 1 ∧
    threatView [Adjustment.atksPerRound 2, Adjustment.plain] acBoosted
        = Monster.threat acBoosted.threats :=
  (c5_shared_threat_map [Adjustment.plain] [Adjustment.atksPerRound 2, Adjustment.plain]
    fixtureMonster acBoosted "ac" (by decide)).1 (by decide)

/-- C6: when a `good(stat)` call completes with a snapshot, calling
`good(stat)` again returns that same snapshot unchanged, and likewise for
`poor(stat)` (idempotence of the quality adjustments). -/
theorem c6_adjustments_idempotent (st st₁ st₂ : Monster) (stat : String) :
    (Monster.good st stat = Except.ok st₁ → Monster.good st₁ stat = Except.ok st₁) ∧
    (Monster.poor st stat = Except.ok st₂ → Monster.poor st₂ stat = Except.ok st₂) :=
  ⟨fun h => adjust_idem st st₁ stat QualityStat.good 1 h,
   fun h => adjust_idem st st₂ stat QualityStat.poor (-1) h⟩

/-- C6 witness. -/
theorem c6_witness :
    Monster.good fixtureMonster "ac" = Except.ok acBoosted ∧
    Monster.good acBoosted "ac" = Except.ok acBoosted ∧
    Monster.poor fixtureMonster "dc" = Except.ok dcReduced ∧
    Monster.poor dcReduced "dc" = Except.ok dcReduced :=
  ⟨by decide,
   (c6_adjustments_idempotent fixtureMonster acBoosted dcReduced "ac").1 (by decide),
   by decide,
   (c6_adjustments_idempotent fixtureMonster acBoosted dcReduced "dc").2 (by decide)⟩

/-- C7: evaluating the code at the failing inputs.  `poor("hp")` and
`good("dmg")` on a freshly built monster raise `TypeError` instead of
adjusting the stat: `_get_base_stat_from_str` passes the `Count` object
where `__init__` passes `int(count)`, and `from_size` cannot compare it.
For the stats whose band lookup does not go through `from_size`, the
claimed last-write-wins behavior does hold, shown here for atk. -/
theorem c7_hp_dmg_adjustment_type_error :
    Monster.poor fixtureMonster "hp" = Except.error typeErrorMsg ∧
    Monster.good fixtureMonster "dmg" = Except.error typeErrorMsg ∧
    (Monster.poor fixtureMonster "atk").bind (fun m => Monster.good m "atk")
        = Except.ok atkBoosted ∧
    atkBoosted.threats.get "atk" = 1 ∧
    atkBoosted.atk = legendary.atk.good := by
  refine ⟨by decide, by decide, by decide, by decide, by decide⟩

/-- C9: contrary to the claim, the apr converter never raises: a
non-numeric apr string other than `area`/`dot` is silently converted to
Python `None`, and a numeric count string whose value matches no band
(0 or 6) is likewise accepted silently as `None`; the only parse-time
rejection on these two paths is a count string that is not an integer
literal at all. -/
theorem c9_silent_invalid_selectors (s : String) :
    (apr_arg s).isErr = false ∧
    (pyIsNumeric s = false → pyLower s ≠ "area" → pyLower s ≠ "dot" →
      apr_arg s = ArgResult.ok none) ∧
    count_num_arg "6" = ArgResult.ok none ∧
    count_num_arg "0" = ArgResult.ok none ∧
    count_num_arg "abc" = ArgResult.err ("invalid literal for int() with base 10: abc") := by
  refine ⟨?_, ?_, by decide, by decide, by decide⟩
  · unfold apr_arg
    dsimp only
    split_ifs <;> rfl
  · intro h1 h2 h3
    simp [apr_arg, h1, h2, h3]

/-- C9 counterexample: the invalid apr selector `slow` is not rejected with
an error; it is accepted and becomes Python `None`, as is the in-range-free
count 6. -/
theorem c9_counterexample :
    apr_arg "slow" = ArgResult.ok none ∧ (apr_arg "slow").isErr = false ∧
    count_num_arg "6" = ArgResult.ok none ∧ (count_num_arg "6").isErr = false := by decide

/-- C9 witness. -/
theorem c9_witness :
    (apr_arg "slow").isErr = false ∧ apr_arg "slow" = ArgResult.ok none :=
  ⟨(c9_silent_invalid_selectors "slow").1,
   (c9_silent_invalid_selectors "slow").2.1 (by decide) (by decide) (by decide)⟩

end Mkmonster
